import Mathlib

/-!
Verification of the financial-agent report synthesis and task routing.

Shallow embedding of `src/app/api/v0/agents/financial_agent.py`.

Modelling conventions:
* Python dicts are association lists over a JSON-like value type `JVal`;
  lookup takes the first matching key (the source's dict literals have no
  duplicate keys).
* Python numbers are modelled as exact rationals `ℚ`; the display rounding
  of `f"{x:,.0f}"` is modelled as round-half-to-even followed by grouping
  the integral digits in threes, which agrees with CPython on the exact
  values the source computes.
* The external completion service is an oracle parameter of type
  `Completion := Except String String`: `.ok text` is a successful call
  returning `text`, `.error msg` is any raised completion failure.
* Python exceptions escaping a function are modelled as `Except.error` of
  a `PyError` value.
-/

set_option autoImplicit false

namespace FinancialAgent

/-! ## Python number formatting (`f"{x:,.0f}"` and `str`) -/

/-- Decimal digits of `n`, least significant first (empty for `0`).
The first argument is fuel, instantiated to `n` itself, so that the
definition is structurally recursive and kernel-reducible. -/
def digitsRevAux : Nat → Nat → List Char
  | _, 0 => []
  | 0, _ => []
  | fuel + 1, n => Nat.digitChar (n % 10) :: digitsRevAux fuel (n / 10)

def digitsRev (n : Nat) : List Char := digitsRevAux n n

/-- Decimal rendering of a natural number without grouping (Python `str`). -/
def natStr (n : Nat) : String :=
  if n = 0 then "0" else String.mk (digitsRev n).reverse

def intStr (n : ℤ) : String :=
  if n < 0 then "-" ++ natStr n.natAbs else natStr n.natAbs

/-- Insert a `,` before every third digit of a least-significant-first digit
list; `i` counts digits already emitted. -/
def commaRevAux : List Char → Nat → List Char
  | [], _ => []
  | c :: rest, i =>
    if i % 3 = 0 ∧ i ≠ 0 then ',' :: c :: commaRevAux rest (i + 1)
    else c :: commaRevAux rest (i + 1)

/-- Comma-grouped decimal rendering of a natural number (`f"{n:,}"`). -/
def commaGroupNat (n : Nat) : String :=
  if n = 0 then "0" else String.mk (commaRevAux (digitsRev n) 0).reverse

def commaGroupInt (n : ℤ) : String :=
  if n < 0 then "-" ++ commaGroupNat n.natAbs else commaGroupNat n.natAbs

/-- Rounding of `.0f`: round half to even.  Written over the numerator and
denominator of the (reduced) rational so that it evaluates by kernel
reduction: `n` is `⌊q⌋` and `r` the numerator of the fractional part, so
`q - ⌊q⌋ < 1/2 ↔ 2r < den`, etc. -/
def pyRound0 (q : ℚ) : ℤ :=
  let n : ℤ := q.num.fdiv q.den
  let r : ℤ := q.num - n * q.den
  if 2 * r < (q.den : ℤ) then n
  else if (q.den : ℤ) < 2 * r then n + 1
  else if n % 2 = 0 then n else n + 1

/-- Python `f"{q:,.0f}"`. -/
def fmtNum (q : ℚ) : String := commaGroupInt (pyRound0 q)

/-! ## JSON-like values (Python dicts / lists / scalars) -/

/-- JSON-like values: the payloads handled by the agent.  Python dicts are
association lists; lookup takes the first matching key (the source's dict
literals never repeat a key). -/
inductive JVal where
  | null
  | bool (b : Bool)
  | num (q : ℚ)
  | str (s : String)
  | arr (xs : List JVal)
  | obj (fields : List (String × JVal))

/-- First-match association-list lookup (Python `dict` access). -/
def getField : List (String × JVal) → String → Option JVal
  | [], _ => none
  | (k, v) :: rest, key => if k = key then some v else getField rest key

/-- Python `d.get(key)` on an object; `none` when the key is absent. -/
def JVal.get : JVal → String → Option JVal
  | .obj fs, key => getField fs key
  | _, _ => none

/-- Chained lookups along a path of keys. -/
def JVal.getPath : JVal → List String → Option JVal
  | v, [] => some v
  | v, k :: ks =>
    match v.get k with
    | some w => w.getPath ks
    | none => none

/-- Python `x == "s"` for a JSON value `x`: true exactly for the equal string. -/
def JVal.isStr : JVal → String → Bool
  | .str t, s => t == s
  | _, _ => false

/-- Python `str()` of a JSON number: exact for integers.  CPython renders
non-integral floats in decimal; that rendering is abstracted here as
`num/den` — no claim inspects such a string. -/
def numStr (q : ℚ) : String :=
  if q.den = 1 then intStr q.num else intStr q.num ++ "/" ++ natStr q.den

/-- Python `repr()` of a JSON value (used inside container renderings). -/
def pyRepr : JVal → String
  | .null => "None"
  | .bool b => if b then "True" else "False"
  | .num q => numStr q
  | .str s => "\x27" ++ s ++ "\x27"
  | .arr xs => "[" ++ String.intercalate ", " (xs.attach.map fun x => pyRepr x.1) ++ "]"
  | .obj fs =>
    "\x7b" ++
      String.intercalate ", "
        (fs.attach.map fun kv => "\x27" ++ kv.1.1 ++ "\x27: " ++ pyRepr kv.1.2) ++
      "\x7d"
termination_by v => sizeOf v
decreasing_by
  · have := List.sizeOf_lt_of_mem x.2
    simp only [JVal.arr.sizeOf_spec]
    omega
  · have h1 := List.sizeOf_lt_of_mem kv.2
    obtain ⟨⟨a, b⟩, hmem⟩ := kv
    simp only [Prod.mk.sizeOf_spec] at h1
    simp only [JVal.obj.sizeOf_spec]
    omega

/-- Python `str()` of a JSON value, as interpolated by f-strings. -/
def pyStr : JVal → String
  | .str s => s
  | v => pyRepr v

/-- Python `repr` of a list of strings, as produced by interpolating
`strategic_plan.get(...).get('short_term_goals', [])` into the prompt. -/
def pyStrListRepr (l : List String) : String :=
  "[" ++ String.intercalate ", " (l.map fun s => "\x27" ++ s ++ "\x27") ++ "]"

/-! ## Input data model -/

/-- The fields `analyze_financial_aspects` reads from `business_data`, with
the defaults supplied by its `business_data.get(...)` calls.  Numbers are
modelled as rationals; `initial_investment = none` models the key being
absent (Python `None`). -/
structure BusinessData where
  business_name : String := ""
  business_type : String := ""
  location : String := ""
  description : String := ""
  target_market : String := ""
  growth_goals : List String := []
  industry : String := ""
  business_model : String := ""
  initial_investment : Option ℚ := none
  team_size : Option ℤ := none

/-- The only path of `strategic_plan` the source reads:
`strategic_plan.get("growth_strategy", {}).get("short_term_goals", [])`,
with absence defaulting to the empty list. -/
structure StrategicPlan where
  short_term_goals : List String := []

/-- Python `str(team_size)` as interpolated into the prompt. -/
def teamSizeStr : Option ℤ → String
  | none => "None"
  | some n => intStr n

/-- Outcome of the one external completion call: the returned text, or the
message of whatever exception the call raised. -/
abbrev Completion := Except String String

/-- Exceptions that can escape the modelled functions. -/
inductive PyError where
  | typeError
  | attributeError
deriving DecidableEq

/-! ## Prompt construction (`analyze_financial_aspects`, lines 66–126)

The f-string contains the replacement field `{initial_investment:,.0f}`
(the conditional that was presumably intended around it is literal text in
the source), so building the prompt raises `TypeError` whenever
`initial_investment` is `None`: `format(None, ",.0f")` is not supported.
This happens **before** the `try` block, so the exception propagates. -/

def buildPrompt (bd : BusinessData) (sp : StrategicPlan) : Except PyError String :=
  match bd.initial_investment with
  | none => .error .typeError
  | some v => .ok (
      "\n        As a financial consultant specializing in " ++ bd.business_type ++
      " business finance, analyze the following business and provide financial recommendations:\n" ++
      "\n        Business Information:\n" ++
      "        - Name: " ++ bd.business_name ++ "\n" ++
      "        - Type: " ++ bd.business_type ++ "\n" ++
      "        - Location: " ++ bd.location ++ "\n" ++
      "        - Description: " ++ bd.description ++ "\n" ++
      "        - Target Market: " ++ bd.target_market ++ "\n" ++
      "        - Industry: " ++ bd.industry ++ "\n" ++
      "        - Business Model: " ++ bd.business_model ++ "\n" ++
      "        - Initial Investment: $" ++ fmtNum v ++ "\" if initial_investment else \"Not specified\"\n" ++
      "        - Team Size: " ++ teamSizeStr bd.team_size ++ " employees\" if team_size else \"Not specified\"\n" ++
      "        - Growth Goals: " ++ String.intercalate ", " bd.growth_goals ++ "\n" ++
      "        \n" ++
      "        Strategic Plan Context: " ++ pyStrListRepr sp.short_term_goals ++ "\n" ++
      "\n        Please provide financial analysis specifically tailored for this " ++
      bd.business_type ++ " business in the " ++ bd.industry ++ " industry, including:\n" ++
      "\n        1. Financial Projections and Forecasts:\n           - Revenue projections (1-3 years)\n           - Profit margin analysis\n           - Growth trajectory\n" ++
      "\n        2. Funding Requirements and Sources:\n           - Initial capital requirements\n           - Working capital needs\n           - Funding sources and options\n" ++
      "\n        3. Cost Structure Analysis:\n           - Fixed and variable costs\n           - Cost optimization strategies\n           - Operational efficiency\n" ++
      "\n        4. Pricing Strategy Recommendations:\n           - Pricing models and strategies\n           - Competitive pricing analysis\n           - Value-based pricing opportunities\n" ++
      "\n        5. Cash Flow Management:\n           - Cash flow projections\n           - Working capital management\n           - Payment terms and cycles\n" ++
      "\n        6. Investment Opportunities:\n           - Growth investment options\n           - ROI analysis\n           - Payback periods\n" ++
      "\n        7. Financial Risk Assessment:\n           - Financial risks and mitigation\n           - Contingency planning\n           - Financial sustainability\n" ++
      "\n        8. Break-even Analysis:\n           - Break-even point calculation\n           - Margin analysis\n           - Profitability thresholds\n" ++
      "\n        Focus on practical financial strategies for this " ++ bd.business_type ++
      " business in the " ++ bd.industry ++ " industry.\n        ")

/-! ## Report construction (`analyze_financial_aspects`, lines 146–469) -/

def placeholder : String := "To be determined"

/-- The recurring leaf pattern of the success report:
`f"${initial_investment * frac:,.0f}{suffix}" if initial_investment else alt`.
Python truthiness makes `0` fall to `alt` as well. -/
def condMoney (inv : Option ℚ) (frac : ℚ) (suffix alt : String) : String :=
  match inv with
  | some v => if v ≠ 0 then "$" ++ fmtNum (v * frac) ++ suffix else alt
  | none => alt

/-- Pattern `f"${initial_investment:,.0f}" if initial_investment else "To be determined"`. -/
def totalMoneyUSD (inv : Option ℚ) : String :=
  match inv with
  | some v => if v ≠ 0 then "$" ++ fmtNum v else placeholder
  | none => placeholder

/-- The fallback-report leaf pattern:
`f"{initial_investment * frac:,.0f} THB" if initial_investment else "To be determined"`. -/
def condMoneyTHB (inv : Option ℚ) (frac : ℚ) : String :=
  match inv with
  | some v => if v ≠ 0 then fmtNum (v * frac) ++ " THB" else placeholder
  | none => placeholder

/-- Pattern `f"{initial_investment:,.0f} THB" if initial_investment else "To be determined"`. -/
def totalMoneyTHB (inv : Option ℚ) : String :=
  match inv with
  | some v => if v ≠ 0 then fmtNum v ++ " THB" else placeholder
  | none => placeholder

/-- The full success report (source lines 146–424): built when the
completion call returns `financial_analysis_text`. -/
def fullReport (bd : BusinessData) (financial_analysis_text : String) : JVal :=
  let bt := bd.business_type
  let inv := bd.initial_investment
  .obj [
    ("business_name", .str bd.business_name),
    ("business_type", .str bt),
    ("financial_projections", .obj [
      ("revenue_forecast", .obj [
        ("year_1", .str (condMoney inv 0.8 "" placeholder)),
        ("year_2", .str (condMoney inv 1.2 "" placeholder)),
        ("year_3", .str (condMoney inv 1.8 "" placeholder))]),
      ("profit_margins", .obj [
        (bt ++ "_services", .str "60-70%"),
        (bt ++ "_products", .str "50-60%"),
        (bt ++ "_consulting", .str "80-90%")]),
      ("monthly_revenue_targets", .obj [
        ("month_1_6", .str (condMoney inv 0.05 "" placeholder)),
        ("month_7_12", .str (condMoney inv 0.08 "" placeholder)),
        ("year_2", .str (condMoney inv 0.1 "" placeholder))])]),
    ("funding_requirements", .obj [
      ("initial_investment", .obj [
        (bt ++ "_equipment", .str (condMoney inv 0.4 "" placeholder)),
        (bt ++ "_facility", .str (condMoney inv 0.25 "" placeholder)),
        (bt ++ "_inventory", .str (condMoney inv 0.1 "" placeholder)),
        ("marketing", .str (condMoney inv 0.15 "" placeholder)),
        ("working_capital", .str (condMoney inv 0.1 "" placeholder)),
        ("total", .str (totalMoneyUSD inv))]),
      ("funding_sources", .arr [
        .obj [("source", .str "Personal savings"),
              ("amount", .str (condMoney inv 0.5 "" placeholder)),
              ("percentage", .str "50%")],
        .obj [("source", .str "Bank loan"),
              ("amount", .str (condMoney inv 0.4 "" placeholder)),
              ("percentage", .str "40%")],
        .obj [("source", .str "Investor/Partner"),
              ("amount", .str (condMoney inv 0.1 "" placeholder)),
              ("percentage", .str "10%")]])]),
    ("cost_structure", .obj [
      ("fixed_costs", .obj [
        ("rent", .str (condMoney inv 0.02 "/month" placeholder)),
        ("utilities", .str (condMoney inv 0.005 "/month" placeholder)),
        ("insurance", .str (condMoney inv 0.002 "/month" placeholder)),
        ("licenses", .str (condMoney inv 0.001 "/month" placeholder)),
        ("total_fixed", .str (condMoney inv 0.028 "/month" placeholder))]),
      ("variable_costs", .obj [
        (bt ++ "_materials", .str "25% of revenue"),
        (bt ++ "_labor", .str "30% of revenue"),
        (bt ++ "_marketing", .str "10% of revenue"),
        (bt ++ "_overhead", .str "15% of revenue"),
        ("total_variable", .str "80% of revenue")])]),
    ("pricing_strategy", .obj [
      (bt ++ "_pricing", .obj [
        ("basic_" ++ bt ++ "_service", .str (condMoney inv 0.001 "" "Market-based pricing")),
        ("premium_" ++ bt ++ "_service", .str (condMoney inv 0.002 "" "Value-based pricing")),
        (bt ++ "_consulting", .str (condMoney inv 0.005 "" "Hourly rate"))]),
      ("pricing_factors", .arr [
        .str "Competitor analysis",
        .str "Cost-plus pricing",
        .str "Value-based pricing",
        .str (bt ++ " market positioning")])]),
    ("cash_flow_management", .obj [
      ("daily_cash_flow", .obj [
        ("inflow", .str (condMoney inv 0.003 "" placeholder)),
        ("outflow", .str (condMoney inv 0.002 "" placeholder)),
        ("net", .str (condMoney inv 0.001 "" placeholder))]),
      ("cash_reserves", .str "Maintain 3-6 months of operating expenses"),
      ("payment_terms", .obj [
        ("suppliers", .str "Net 30 days"),
        ("customers", .str "Immediate payment"),
        ("utilities", .str "Monthly in advance")])]),
    ("investment_opportunities", .arr [
      .obj [("opportunity", .str (bt ++ " equipment upgrade")),
            ("investment", .str (condMoney inv 0.15 "" placeholder)),
            ("roi", .str "15-20%"),
            ("payback_period", .str "18-24 months")],
      .obj [("opportunity", .str (bt ++ " technology system")),
            ("investment", .str (condMoney inv 0.075 "" placeholder)),
            ("roi", .str "25-30%"),
            ("payback_period", .str "12-18 months")],
      .obj [("opportunity", .str (bt ++ " marketing campaign")),
            ("investment", .str (condMoney inv 0.1 "" placeholder)),
            ("roi", .str "20-25%"),
            ("payback_period", .str "6-12 months")]]),
    ("financial_risks", .obj [
      ("market_risks", .arr [
        .str ("Economic downturn affecting " ++ bt ++ " demand"),
        .str ("Changes in " ++ bd.industry ++ " regulations"),
        .str ("New " ++ bt ++ " competitors entering the market")]),
      ("operational_risks", .arr [
        .str (bt ++ " staff turnover and training costs"),
        .str (bt ++ " equipment breakdowns"),
        .str (bt ++ " supply chain disruptions")]),
      ("mitigation_strategies", .arr [
        .str ("Diversify " ++ bt ++ " revenue streams"),
        .str "Build emergency fund",
        .str ("Maintain good " ++ bt ++ " supplier relationships"),
        .str ("Invest in " ++ bt ++ " staff training and retention")])]),
    ("break_even_analysis", .obj [
      ("monthly_fixed_costs", .str (condMoney inv 0.028 "" placeholder)),
      ("average_contribution_margin", .str "20%"),
      ("break_even_revenue", .str (condMoney inv 0.14 "/month" placeholder)),
      ("break_even_timeframe", .str "8-12 months")]),
    ("financial_kpis", .arr [
      .str "Daily sales revenue",
      .str "Customer average transaction value",
      .str "Cost of goods sold (COGS)",
      .str "Gross profit margin",
      .str "Net profit margin",
      .str "Cash flow from operations",
      .str "Return on investment (ROI)",
      .str "Customer acquisition cost"]),
    ("recommendations", .arr [
      .str "Start with conservative financial projections and adjust based on actual performance",
      .str "Maintain a cash reserve of at least 6 months of operating expenses",
      .str "Implement cost control measures and regular financial monitoring",
      .str "Consider multiple funding sources to reduce financial risk",
      .str "Focus on high-margin products and efficient operations",
      .str "Invest in technology to improve operational efficiency",
      .str "Build strong relationships with suppliers for better payment terms",
      .str "Regularly review and adjust pricing strategy based on market conditions"]),
    ("ai_analysis", .str financial_analysis_text)]

/-- The reduced fallback report returned by the `except` branch
(source lines 430–469). -/
def fallbackReport (bd : BusinessData) : JVal :=
  let bt := bd.business_type
  let inv := bd.initial_investment
  .obj [
    ("business_name", .str bd.business_name),
    ("business_type", .str bt),
    ("financial_projections", .obj [
      ("revenue_forecast", .obj [
        ("year_1", .str (condMoneyTHB inv 0.5)),
        ("year_2", .str (condMoneyTHB inv 0.75))])]),
    ("funding_requirements", .obj [
      ("initial_investment", .obj [
        ("total", .str (totalMoneyTHB inv))])]),
    ("pricing_strategy", .obj [
      (bt ++ "_pricing", .obj [
        ("basic_" ++ bt ++ "_service", .str "Market-based pricing"),
        ("premium_" ++ bt ++ "_service", .str "Value-based pricing"),
        (bt ++ "_consulting", .str "Hourly rate")])]),
    ("recommendations", .arr [
      .str "Maintain cash reserves",
      .str "Monitor costs closely",
      .str ("Focus on high-margin " ++ bt ++ " products/services"),
      .str "Build supplier relationships"])]

/-- Models `FinancialAgent.analyze_financial_aspects` (lines 49–469).  The prompt
f-string is evaluated before the `try` block; a `TypeError` raised there
propagates.  Inside the `try`, a successful completion yields the full
report (with `ai_analysis` set to the returned text) and any completion
failure is swallowed into the fallback report. -/
def analyzeFinancialAspects (bd : BusinessData) (sp : StrategicPlan)
    (completion : Completion) : Except PyError JVal :=
  match buildPrompt bd sp with
  | .error e => .error e
  | .ok _prompt =>
    match completion with
    | .ok text => .ok (fullReport bd text)
    | .error _e => .ok (fallbackReport bd)

/-! ## `/receive_message` endpoint (lines 476–493) -/

structure MCPMessage where
  agent_type : String
  business_data : BusinessData
  strategic_plan : StrategicPlan := {}
  timestamp : String
  request_id : String

structure FinancialResponse where
  agent_type : String
  financial_analysis : JVal
  timestamp : String
  request_id : String

/-- The error response of `HTTPException(status_code=500, detail=...)`. -/
structure HTTPError where
  status_code : ℕ
  detail : String

/-- Python `str(e)` of the modelled exceptions, as CPython prints them. -/
def pyErrStr : PyError → String
  | .typeError => "unsupported format string passed to NoneType.__format__"
  | .attributeError => "\x27list\x27 object has no attribute \x27get\x27"

/-- Endpoint `/receive_message` (lines 476–493): runs the analysis and wraps it; an
uncaught exception becomes a 500 `HTTPException`.  `now` models
`datetime.now().isoformat()`. -/
def receiveMessage (msg : MCPMessage) (completion : Completion) (now : String) :
    Except HTTPError FinancialResponse :=
  match analyzeFinancialAspects msg.business_data msg.strategic_plan completion with
  | .ok financial_analysis =>
    .ok { agent_type := msg.agent_type
          financial_analysis := financial_analysis
          timestamp := now
          request_id := msg.request_id }
  | .error e =>
    .error { status_code := 500, detail := "Financial analysis failed: " ++ pyErrStr e }

/-! ## Automated tasks (`/execute_automated_task`, lines 506–698) -/

/-- Models `perform_financial_review` (lines 558–628).  `parameters` is accepted
and never read, exactly as in the source.  The completion failure is
caught inside the generator itself. -/
def performFinancialReview (business_name business_id parameters : JVal)
    (completion : Completion) (now : String) : JVal :=
  let _review_prompt :=
    "\n        Perform a comprehensive financial review for " ++ pyStr business_name ++
    ":\n        \n        Analysis areas:\n        - Revenue performance and trends\n" ++
    "        - Cost structure and efficiency\n        - Profitability analysis\n" ++
    "        - Cash flow management\n        - Financial ratios and metrics\n" ++
    "        - Budget vs actual performance\n        \n" ++
    "        Provide actionable financial insights and recommendations for improvement.\n        "
  let _unused := parameters
  match completion with
  | .ok analysis =>
    .obj [
      ("status", .str "completed"),
      ("task_type", .str "financial_review"),
      ("business_name", business_name),
      ("business_id", business_id),
      ("review_date", .str now),
      ("financial_analysis", .str analysis),
      ("financial_data", .obj [
        ("revenue", .num 850000),
        ("expenses", .num 680000),
        ("profit_margin", .num 20),
        ("cash_flow", .num 120000),
        ("growth_rate", .num 15)]),
      ("key_metrics", .obj [
        ("revenue_growth", .str "15%"),
        ("profit_margin", .str "20%"),
        ("cash_flow_positive", .bool true),
        ("expense_ratio", .str "80%")]),
      ("financial_recommendations", .arr [
        .str "Optimize pricing strategy for better margins",
        .str "Implement cost control measures",
        .str "Improve cash flow management",
        .str "Explore financing options for growth"]),
      ("risk_assessment", .obj [
        ("financial_risks", .arr [
          .str "Cash flow volatility",
          .str "Market competition"]),
        ("mitigation_strategies", .arr [
          .str "Build cash reserves",
          .str "Diversify revenue streams"])])]
  | .error e =>
    .obj [("status", .str "failed"), ("error", .str e), ("task_type", .str "financial_review")]

/-- Models `perform_budget_adjustment` (lines 631–698).  `parameters` is accepted
and never read. -/
def performBudgetAdjustment (business_name business_id parameters : JVal)
    (completion : Completion) (now : String) : JVal :=
  let _adjustment_prompt :=
    "\n        Perform budget adjustment analysis for " ++ pyStr business_name ++
    ":\n        \n        Current situation:\n        - Performance vs budget\n" ++
    "        - Market conditions\n        - Growth opportunities\n        - Cost pressures\n" ++
    "        \n        Provide:\n        - Budget adjustment recommendations\n" ++
    "        - Resource allocation priorities\n        - Investment opportunities\n" ++
    "        - Cost optimization strategies\n        "
  let _unused := parameters
  match completion with
  | .ok adjustment =>
    .obj [
      ("status", .str "completed"),
      ("task_type", .str "budget_adjustment"),
      ("business_name", business_name),
      ("business_id", business_id),
      ("adjustment_date", .str now),
      ("budget_analysis", .str adjustment),
      ("budget_adjustments", .obj [
        ("marketing_budget", .str "+20%"),
        ("operational_costs", .str "-5%"),
        ("technology_investment", .str "+30%"),
        ("staff_training", .str "+15%")]),
      ("resource_allocation", .obj [
        ("high_priority", .arr [.str "Marketing", .str "Technology"]),
        ("medium_priority", .arr [.str "Staff training", .str "Operations"]),
        ("low_priority", .arr [.str "Administrative costs"])]),
      ("investment_opportunities", .arr [
        .str "Digital marketing automation",
        .str "Customer relationship management system",
        .str "Process optimization tools"]),
      ("cost_optimization", .arr [
        .str "Negotiate supplier contracts",
        .str "Implement energy efficiency measures",
        .str "Optimize inventory management"])]
  | .error e =>
    .obj [("status", .str "failed"), ("error", .str e), ("task_type", .str "budget_adjustment")]

/-- The `else` branch of the dispatcher (lines 533–544): a completed
envelope echoing the task type, built without any completion call. -/
def genericTaskResult (task_type business_name : JVal) : JVal :=
  .obj [
    ("status", .str "completed"),
    ("task_type", task_type),
    ("message", .str ("Financial analysis completed for " ++ pyStr task_type)),
    ("financial_insights", .str ("Financial insights for " ++ pyStr business_name)),
    ("recommendations", .arr [
      .str "Monitor cash flow regularly",
      .str "Review expense patterns",
      .str "Optimize pricing strategy"])]

/-- The envelope built by the `except` handler when `request.json()` itself
failed (so `data` is not bound and the handler falls to `"unknown"`). -/
def parseFailResult (errMsg : String) : JVal :=
  .obj [("status", .str "failed"), ("error", .str errMsg), ("task_type", .str "unknown")]

/-- Endpoint `/execute_automated_task` (lines 506–555).

* `body` is the outcome of `request.json()`: `.error msg` models a JSON
  parse failure, `.ok v` the parsed value.
* A parse failure is caught; `"data" in locals()` is false, so the
  handler returns the `"unknown"` envelope.
* When the body parses to a **non-object** value, `data.get(...)` raises
  `AttributeError` inside the `try`; the handler then evaluates
  `data.get("task_type")` again (since `data` *is* bound) and that second
  `AttributeError` propagates out of the endpoint.
* Otherwise the dispatcher branches on `task_type` exactly as the source
  does, defaulting `business_id` to `"temp_id"` and `parameters` to `{}`. -/
def executeAutomatedTask (body : Except String JVal) (completion : Completion)
    (now : String) : Except PyError JVal :=
  match body with
  | .error msg => .ok (parseFailResult msg)
  | .ok data =>
    match data with
    | .obj fs =>
      let task_type := (getField fs "task_type").getD .null
      let business_name := (getField fs "business_name").getD .null
      let business_id := (getField fs "business_id").getD (.str "temp_id")
      let parameters := (getField fs "parameters").getD (.obj [])
      if task_type.isStr "financial_review" then
        .ok (performFinancialReview business_name business_id parameters completion now)
      else if task_type.isStr "budget_adjustment" then
        .ok (performBudgetAdjustment business_name business_id parameters completion now)
      else
        .ok (genericTaskResult task_type business_name)
    | _ => .error .attributeError

/-! ## Formatter lemmas: the characters a `,.0f` rendering can contain -/

theorem digitChar_isDigit : ∀ d : Nat, d < 10 → (Nat.digitChar d).isDigit = true := by decide

theorem mem_digitsRevAux (fuel : Nat) :
    ∀ (n : Nat) (c : Char), c ∈ digitsRevAux fuel n → c.isDigit = true := by
  induction fuel with
  | zero =>
    intro n c h
    cases n <;> simp [digitsRevAux] at h
  | succ f ih =>
    intro n c h
    match n with
    | 0 => simp [digitsRevAux] at h
    | m + 1 =>
      simp only [digitsRevAux] at h
      rcases List.mem_cons.mp h with h | h
      · subst h; exact digitChar_isDigit _ (Nat.mod_lt _ (by omega))
      · exact ih _ _ h

theorem mem_commaRevAux (l : List Char) :
    ∀ (i : Nat) (c : Char), c ∈ commaRevAux l i → c ∈ l ∨ c = ',' := by
  induction l with
  | nil => intro i c h; simp [commaRevAux] at h
  | cons a rest ih =>
    intro i c h
    simp only [commaRevAux] at h
    split at h
    · rcases List.mem_cons.mp h with h | h
      · right; exact h
      · rcases List.mem_cons.mp h with h | h
        · left; simp [h]
        · rcases ih _ _ h with h' | h'
          · left; exact List.mem_cons_of_mem _ h'
          · right; exact h'
    · rcases List.mem_cons.mp h with h | h
      · left; simp [h]
      · rcases ih _ _ h with h' | h'
        · left; exact List.mem_cons_of_mem _ h'
        · right; exact h'

theorem mem_commaGroupNat (n : Nat) (c : Char) (h : c ∈ (commaGroupNat n).data) :
    c.isDigit = true ∨ c = ',' := by
  unfold commaGroupNat at h
  split at h
  · have hc : c = '0' := by simpa using h
    subst hc; left; decide
  · have h' : c ∈ commaRevAux (digitsRev n) 0 := by
      rw [show (String.mk ((commaRevAux (digitsRev n) 0).reverse)).data
            = (commaRevAux (digitsRev n) 0).reverse from rfl,
          List.mem_reverse] at h
      exact h
    rcases mem_commaRevAux _ _ _ h' with h' | h'
    · left; exact mem_digitsRevAux _ _ _ h'
    · right; exact h'

theorem pyRound0_nonneg (q : ℚ) (hq : 0 ≤ q) : 0 ≤ pyRound0 q := by
  unfold pyRound0
  have hnum : 0 ≤ q.num := Rat.num_nonneg.mpr hq
  have hden : (0 : ℤ) ≤ (q.den : ℤ) := Int.ofNat_nonneg _
  have hfdiv : 0 ≤ q.num.fdiv q.den := Int.fdiv_nonneg hnum hden
  dsimp only
  split
  · exact hfdiv
  · split
    · omega
    · split <;> omega

/-- A `,.0f` rendering of a non-negative number never contains `'$'`. -/
theorem dollar_not_mem_fmtNum (q : ℚ) (hq : 0 ≤ q) : '$' ∉ (fmtNum q).data := by
  intro hm
  unfold fmtNum commaGroupInt at hm
  rw [if_neg (not_lt.mpr (pyRound0_nonneg q hq))] at hm
  rcases mem_commaGroupNat _ _ hm with h | h
  · exact absurd h (by decide)
  · exact absurd h (by decide)

/-- A fallback-tier money string `f"{x:,.0f} THB"` never contains `'$'`. -/
theorem dollar_not_mem_thb (q : ℚ) (hq : 0 ≤ q) : '$' ∉ (fmtNum q ++ " THB").data := by
  intro hm
  rw [String.data_append, List.mem_append] at hm
  rcases hm with hm | hm
  · exact dollar_not_mem_fmtNum q hq hm
  · exact absurd hm (by decide)

/-! ## Concrete inputs used by witnesses and counterexamples -/

def cafeBD : BusinessData :=
  { business_type := "cafe", industry := "food", initial_investment := some 100000 }

def cafeMsg : MCPMessage :=
  { agent_type := "financial", business_data := cafeBD,
    timestamp := "2026-10-12T00:00:00", request_id := "req-1" }

/-! ## Claims -/

/-- Claim C1. The claim states that for every profile with
`initial_investment` absent, `analyze_financial_aspects` returns a baseline
report whose monetary leaves are all `"To be determined"`.  The code cannot
do this: the prompt f-string formats `initial_investment` with `,.0f`
unconditionally (line 77), so `format(None, ",.0f")` raises `TypeError`
before the `try` block and the function returns nothing at all for such
profiles. -/
theorem analyze_absent_investment_raises (bd : BusinessData) (sp : StrategicPlan)
    (c : Completion) (h : bd.initial_investment = none) :
    analyzeFinancialAspects bd sp c = .error .typeError := by
  simp [analyzeFinancialAspects, buildPrompt, h]

theorem analyze_absent_investment_raises_witness :
    ({} : BusinessData).initial_investment = none ∧
    analyzeFinancialAspects {} {} (.ok "narrative") = .error .typeError :=
  ⟨rfl, analyze_absent_investment_raises {} {} (.ok "narrative") rfl⟩

/-- Claim C2. The claim states `analyze_financial_aspects` is total (no
exception for well-typed input, scalar present or absent).  Evaluating the
code at a well-typed profile with the scalar absent shows the `TypeError`
raised while the prompt f-string formats `None` with `,.0f` (line 77),
which escapes the function. -/
theorem analyze_not_total_on_absent_investment :
    analyzeFinancialAspects
      { business_name := "Cafe A", business_type := "cafe", industry := "food" } {}
      (.ok "some analysis") = .error .typeError := rfl

/-- Claim C3. For every profile (with its investment present and positive, the
documented domain) and strategic plan, when the completion call fails the
error is not propagated: the reduced fallback report is returned, it has no
`cost_structure` and no `cash_flow_management` key, its revenue forecast is
`0.5×`/`0.75×` the investment, and it carries the total funding
requirement, the pricing-strategy labels and the short static
recommendation list. -/
theorem analyze_completion_failure_returns_fallback
    (bd : BusinessData) (sp : StrategicPlan) (e : String) (v : ℚ)
    (h : bd.initial_investment = some v) (hv : 0 < v) :
    analyzeFinancialAspects bd sp (.error e) = .ok (fallbackReport bd) ∧
    (fallbackReport bd).get "cost_structure" = none ∧
    (fallbackReport bd).get "cash_flow_management" = none ∧
    (fallbackReport bd).getPath ["financial_projections", "revenue_forecast", "year_1"]
      = some (.str (fmtNum (v * 0.5) ++ " THB")) ∧
    (fallbackReport bd).getPath ["financial_projections", "revenue_forecast", "year_2"]
      = some (.str (fmtNum (v * 0.75) ++ " THB")) ∧
    (fallbackReport bd).getPath ["funding_requirements", "initial_investment", "total"]
      = some (.str (fmtNum v ++ " THB")) ∧
    (fallbackReport bd).get "pricing_strategy"
      = some (.obj [(bd.business_type ++ "_pricing", .obj [
          ("basic_" ++ bd.business_type ++ "_service", .str "Market-based pricing"),
          ("premium_" ++ bd.business_type ++ "_service", .str "Value-based pricing"),
          (bd.business_type ++ "_consulting", .str "Hourly rate")])]) ∧
    (fallbackReport bd).get "recommendations"
      = some (.arr [.str "Maintain cash reserves", .str "Monitor costs closely",
          .str ("Focus on high-margin " ++ bd.business_type ++ " products/services"),
          .str "Build supplier relationships"]) := by
  have hne : v ≠ 0 := ne_of_gt hv
  refine ⟨?_, ?_, ?_, ?_, ?_, ?_, ?_, ?_⟩ <;>
    simp [analyzeFinancialAspects, buildPrompt, fallbackReport, condMoneyTHB,
      totalMoneyTHB, JVal.get, JVal.getPath, getField, h, hne]

theorem analyze_completion_failure_returns_fallback_witness :
    analyzeFinancialAspects cafeBD {} (.error "service timeout") = .ok (fallbackReport cafeBD) ∧
    (fallbackReport cafeBD).get "cost_structure" = none ∧
    (fallbackReport cafeBD).get "cash_flow_management" = none ∧
    (fallbackReport cafeBD).getPath ["financial_projections", "revenue_forecast", "year_1"]
      = some (.str (fmtNum ((100000 : ℚ) * 0.5) ++ " THB")) ∧
    (fallbackReport cafeBD).getPath ["financial_projections", "revenue_forecast", "year_2"]
      = some (.str (fmtNum ((100000 : ℚ) * 0.75) ++ " THB")) ∧
    (fallbackReport cafeBD).getPath ["funding_requirements", "initial_investment", "total"]
      = some (.str (fmtNum (100000 : ℚ) ++ " THB")) ∧
    (fallbackReport cafeBD).get "pricing_strategy"
      = some (.obj [(cafeBD.business_type ++ "_pricing", .obj [
          ("basic_" ++ cafeBD.business_type ++ "_service", .str "Market-based pricing"),
          ("premium_" ++ cafeBD.business_type ++ "_service", .str "Value-based pricing"),
          (cafeBD.business_type ++ "_consulting", .str "Hourly rate")])]) ∧
    (fallbackReport cafeBD).get "recommendations"
      = some (.arr [.str "Maintain cash reserves", .str "Monitor costs closely",
          .str ("Focus on high-margin " ++ cafeBD.business_type ++ " products/services"),
          .str "Build supplier relationships"]) :=
  analyze_completion_failure_returns_fallback cafeBD {} "service timeout" 100000 rfl (by simp)

/-- Claim C4. For every positive investment `v`, the successful baseline
report prices each monetary leaf at `v` times the fixed fraction of that
leaf, formatted as currency: year-1 revenue at `0.8×`, the funding total at
`1×`, monthly rent at `0.02×`, equipment at `0.4×`, marketing at `0.15×`
(the whole `initial_investment` funding block is checked). -/
theorem analyze_success_leaf_fractions
    (bd : BusinessData) (sp : StrategicPlan) (text : String) (v : ℚ)
    (h : bd.initial_investment = some v) (hv : 0 < v) :
    analyzeFinancialAspects bd sp (.ok text) = .ok (fullReport bd text) ∧
    (fullReport bd text).getPath ["financial_projections", "revenue_forecast", "year_1"]
      = some (.str ("$" ++ fmtNum (v * 0.8))) ∧
    (fullReport bd text).getPath ["funding_requirements", "initial_investment"]
      = some (.obj [
          (bd.business_type ++ "_equipment", .str ("$" ++ fmtNum (v * 0.4))),
          (bd.business_type ++ "_facility", .str ("$" ++ fmtNum (v * 0.25))),
          (bd.business_type ++ "_inventory", .str ("$" ++ fmtNum (v * 0.1))),
          ("marketing", .str ("$" ++ fmtNum (v * 0.15))),
          ("working_capital", .str ("$" ++ fmtNum (v * 0.1))),
          ("total", .str ("$" ++ fmtNum v))]) ∧
    (fullReport bd text).getPath ["cost_structure", "fixed_costs", "rent"]
      = some (.str ("$" ++ fmtNum (v * 0.02) ++ "/month")) := by
  have hne : v ≠ 0 := ne_of_gt hv
  refine ⟨?_, ?_, ?_, ?_⟩ <;>
    simp [analyzeFinancialAspects, buildPrompt, fullReport, condMoney, totalMoneyUSD,
      JVal.get, JVal.getPath, getField, h, hne]

theorem analyze_success_leaf_fractions_witness :
    analyzeFinancialAspects cafeBD {} (.ok "ai text") = .ok (fullReport cafeBD "ai text") ∧
    (fullReport cafeBD "ai text").getPath ["financial_projections", "revenue_forecast", "year_1"]
      = some (.str ("$" ++ fmtNum ((100000 : ℚ) * 0.8))) ∧
    (fullReport cafeBD "ai text").getPath ["funding_requirements", "initial_investment"]
      = some (.obj [
          (cafeBD.business_type ++ "_equipment", .str ("$" ++ fmtNum ((100000 : ℚ) * 0.4))),
          (cafeBD.business_type ++ "_facility", .str ("$" ++ fmtNum ((100000 : ℚ) * 0.25))),
          (cafeBD.business_type ++ "_inventory", .str ("$" ++ fmtNum ((100000 : ℚ) * 0.1))),
          ("marketing", .str ("$" ++ fmtNum ((100000 : ℚ) * 0.15))),
          ("working_capital", .str ("$" ++ fmtNum ((100000 : ℚ) * 0.1))),
          ("total", .str ("$" ++ fmtNum (100000 : ℚ)))]) ∧
    (fullReport cafeBD "ai text").getPath ["cost_structure", "fixed_costs", "rent"]
      = some (.str ("$" ++ fmtNum ((100000 : ℚ) * 0.02) ++ "/month")) :=
  analyze_success_leaf_fractions cafeBD {} "ai text" 100000 rfl (by simp)

/-- Claim C5, counterexample. The claim requires an `ai_analysis` field holding
a non-empty string regardless of completion success or failure.  At the
cafe profile with a failing completion call, the returned
`financial_analysis` is the fallback report, which has no `ai_analysis`
key at all. -/
theorem receive_message_fallback_lacks_ai_analysis :
    receiveMessage cafeMsg (.error "service unavailable") "2026-10-12T00:00:01"
      = .ok { agent_type := "financial",
              financial_analysis := fallbackReport cafeBD,
              timestamp := "2026-10-12T00:00:01",
              request_id := "req-1" } ∧
    (fallbackReport cafeBD).get "ai_analysis" = none :=
  ⟨rfl, rfl⟩

/-- Claim C5 as amended. End-to-end at the cafe profile (`business_type`
"cafe", `industry` "food", `initial_investment` 100000): on either
completion outcome the funding total renders 100000 — `"$100,000"` on
success and `"100,000 THB"` on fallback; `ai_analysis` holds exactly the
returned completion text when the call succeeds, and is absent from the
fallback report when it fails. -/
theorem receive_message_cafe_totals_and_ai (t e now rid : String) :
    (receiveMessage { agent_type := "financial", business_data := cafeBD,
                      timestamp := "ts", request_id := rid } (.ok t) now
       = .ok { agent_type := "financial", financial_analysis := fullReport cafeBD t,
               timestamp := now, request_id := rid } ∧
     (fullReport cafeBD t).getPath ["funding_requirements", "initial_investment", "total"]
       = some (.str "$100,000") ∧
     (fullReport cafeBD t).get "ai_analysis" = some (.str t)) ∧
    (receiveMessage { agent_type := "financial", business_data := cafeBD,
                      timestamp := "ts", request_id := rid } (.error e) now
       = .ok { agent_type := "financial", financial_analysis := fallbackReport cafeBD,
               timestamp := now, request_id := rid } ∧
     (fallbackReport cafeBD).getPath ["funding_requirements", "initial_investment", "total"]
       = some (.str "100,000 THB") ∧
     (fallbackReport cafeBD).get "ai_analysis" = none) :=
  ⟨⟨rfl, rfl, rfl⟩, ⟨rfl, rfl, rfl⟩⟩

/-- Claim C6. Task dispatch under a successful completion: task type
`"financial_review"` yields a result with `financial_data.profit_margin`
20.0; `"budget_adjustment"` yields `budget_adjustments.marketing_budget`
`"+20%"`; any other task type yields the completed generic envelope with
the fixed three-item recommendation list, for an arbitrary completion
oracle — no completion call is made on that branch. -/
theorem execute_task_dispatch
    (fs : List (String × JVal)) (text now : String) (o : Completion) :
    ((getField fs "task_type").getD .null = .str "financial_review" →
      executeAutomatedTask (.ok (.obj fs)) (.ok text) now
        = .ok (performFinancialReview ((getField fs "business_name").getD .null)
            ((getField fs "business_id").getD (.str "temp_id"))
            ((getField fs "parameters").getD (.obj [])) (.ok text) now) ∧
      (performFinancialReview ((getField fs "business_name").getD .null)
          ((getField fs "business_id").getD (.str "temp_id"))
          ((getField fs "parameters").getD (.obj [])) (.ok text) now).getPath
        ["financial_data", "profit_margin"] = some (.num 20)) ∧
    ((getField fs "task_type").getD .null = .str "budget_adjustment" →
      executeAutomatedTask (.ok (.obj fs)) (.ok text) now
        = .ok (performBudgetAdjustment ((getField fs "business_name").getD .null)
            ((getField fs "business_id").getD (.str "temp_id"))
            ((getField fs "parameters").getD (.obj [])) (.ok text) now) ∧
      (performBudgetAdjustment ((getField fs "business_name").getD .null)
          ((getField fs "business_id").getD (.str "temp_id"))
          ((getField fs "parameters").getD (.obj [])) (.ok text) now).getPath
        ["budget_adjustments", "marketing_budget"] = some (.str "+20%")) ∧
    (((getField fs "task_type").getD .null).isStr "financial_review" = false →
      ((getField fs "task_type").getD .null).isStr "budget_adjustment" = false →
      executeAutomatedTask (.ok (.obj fs)) o now
        = .ok (genericTaskResult ((getField fs "task_type").getD .null)
            ((getField fs "business_name").getD .null)) ∧
      (genericTaskResult ((getField fs "task_type").getD .null)
          ((getField fs "business_name").getD .null)).get "status"
        = some (.str "completed") ∧
      (genericTaskResult ((getField fs "task_type").getD .null)
          ((getField fs "business_name").getD .null)).get "recommendations"
        = some (.arr [.str "Monitor cash flow regularly",
            .str "Review expense patterns",
            .str "Optimize pricing strategy"])) := by
  refine ⟨fun h1 => ⟨?_, ?_⟩, fun h2 => ⟨?_, ?_⟩, fun h3 h4 => ⟨?_, rfl, rfl⟩⟩
  · simp [executeAutomatedTask, h1, JVal.isStr]
  · simp [performFinancialReview, JVal.getPath, JVal.get, getField]
  · simp [executeAutomatedTask, h2, JVal.isStr]
  · simp [performBudgetAdjustment, JVal.getPath, JVal.get, getField]
  · simp [executeAutomatedTask, h3, h4]

def frBody : List (String × JVal) :=
  [("task_type", .str "financial_review"), ("business_name", .str "Cafe A")]

def baBody : List (String × JVal) :=
  [("task_type", .str "budget_adjustment"), ("business_name", .str "Cafe A")]

def genBody : List (String × JVal) :=
  [("task_type", .str "daily_health_check"), ("business_name", .str "Cafe A")]

theorem execute_task_dispatch_witness :
    (executeAutomatedTask (.ok (.obj frBody)) (.ok "review text") "now"
       = .ok (performFinancialReview ((getField frBody "business_name").getD .null)
           ((getField frBody "business_id").getD (.str "temp_id"))
           ((getField frBody "parameters").getD (.obj [])) (.ok "review text") "now") ∧
     (performFinancialReview ((getField frBody "business_name").getD .null)
         ((getField frBody "business_id").getD (.str "temp_id"))
         ((getField frBody "parameters").getD (.obj [])) (.ok "review text") "now").getPath
       ["financial_data", "profit_margin"] = some (.num 20)) ∧
    (executeAutomatedTask (.ok (.obj baBody)) (.ok "adjustment text") "now"
       = .ok (performBudgetAdjustment ((getField baBody "business_name").getD .null)
           ((getField baBody "business_id").getD (.str "temp_id"))
           ((getField baBody "parameters").getD (.obj [])) (.ok "adjustment text") "now") ∧
     (performBudgetAdjustment ((getField baBody "business_name").getD .null)
         ((getField baBody "business_id").getD (.str "temp_id"))
         ((getField baBody "parameters").getD (.obj [])) (.ok "adjustment text") "now").getPath
       ["budget_adjustments", "marketing_budget"] = some (.str "+20%")) ∧
    (executeAutomatedTask (.ok (.obj genBody)) (.error "never called") "now"
       = .ok (genericTaskResult ((getField genBody "task_type").getD .null)
           ((getField genBody "business_name").getD .null)) ∧
     (genericTaskResult ((getField genBody "task_type").getD .null)
         ((getField genBody "business_name").getD .null)).get "status"
       = some (.str "completed") ∧
     (genericTaskResult ((getField genBody "task_type").getD .null)
         ((getField genBody "business_name").getD .null)).get "recommendations"
       = some (.arr [.str "Monitor cash flow regularly",
           .str "Review expense patterns",
           .str "Optimize pricing strategy"])) :=
  ⟨(execute_task_dispatch frBody "review text" "now" (.ok "unused")).1 rfl,
   (execute_task_dispatch baBody "adjustment text" "now" (.ok "unused")).2.1 rfl,
   (execute_task_dispatch genBody "unused" "now" (.error "never called")).2.2 rfl rfl⟩

/-- Claim C7, counterexample. The claim says `execute_automated_task` never
raises past its own boundary, for every request body.  A body that parses
to a JSON array (valid JSON, but not an object) refutes it: the first
`data.get(...)` raises `AttributeError` inside the `try`, and the `except`
handler — since `"data" in locals()` is now true — evaluates
`data.get("task_type")` again, raising the same `AttributeError` out of
the endpoint. -/
theorem execute_nonobject_body_raises :
    executeAutomatedTask (.ok (.arr [])) (.ok "text") "now" = .error .attributeError := rfl

/-- Claim C7 as amended. `execute_automated_task` never raises for a body that
fails JSON parsing — that is caught and converted to a `status "failed"`,
`task_type "unknown"` envelope — nor for any body parsing to a JSON
object, where a missing `task_type` falls through to the generic handler
deterministically (with `None` as the echoed task type).  Only a body
parsing to a non-object JSON value makes the handler itself raise. -/
theorem execute_parse_failure_and_missing_task_type
    (msg now : String) (fs : List (String × JVal)) (o : Completion) :
    executeAutomatedTask (.error msg) o now = .ok (parseFailResult msg) ∧
    (parseFailResult msg).get "status" = some (.str "failed") ∧
    (parseFailResult msg).get "task_type" = some (.str "unknown") ∧
    (∃ r, executeAutomatedTask (.ok (.obj fs)) o now = .ok r) ∧
    (getField fs "task_type" = none →
      executeAutomatedTask (.ok (.obj fs)) o now
        = .ok (genericTaskResult .null ((getField fs "business_name").getD .null))) := by
  refine ⟨rfl, rfl, rfl, ?_, fun h => ?_⟩
  · unfold executeAutomatedTask
    dsimp only
    split
    · exact ⟨_, rfl⟩
    · split
      · exact ⟨_, rfl⟩
      · exact ⟨_, rfl⟩
  · simp [executeAutomatedTask, h, JVal.isStr]

theorem execute_parse_failure_and_missing_task_type_witness :
    executeAutomatedTask (.error "Expecting value: line 1 column 1 (char 0)") (.ok "t") "now"
      = .ok (parseFailResult "Expecting value: line 1 column 1 (char 0)") ∧
    (parseFailResult "Expecting value: line 1 column 1 (char 0)").get "status"
      = some (.str "failed") ∧
    (parseFailResult "Expecting value: line 1 column 1 (char 0)").get "task_type"
      = some (.str "unknown") ∧
    (∃ r, executeAutomatedTask (.ok (.obj [("business_name", .str "Cafe A")])) (.ok "t") "now"
      = .ok r) ∧
    executeAutomatedTask (.ok (.obj [("business_name", .str "Cafe A")])) (.ok "t") "now"
      = .ok (genericTaskResult .null
          ((getField [("business_name", JVal.str "Cafe A")] "business_name").getD .null)) := by
  obtain ⟨a, b, c, d, e⟩ :=
    execute_parse_failure_and_missing_task_type
      "Expecting value: line 1 column 1 (char 0)" "now"
      [("business_name", JVal.str "Cafe A")] (.ok "t")
  exact ⟨a, b, c, d, e rfl⟩

/-- Claim C8. Every envelope actually returned by the automated-task path —
the parse-failure handler, the generic handler, and either generator on
completion success or failure — contains at least the keys `status` and
`task_type`. -/
theorem execute_envelope_has_status_and_task_type
    (body : Except String JVal) (o : Completion) (now : String) (r : JVal)
    (h : executeAutomatedTask body o now = .ok r) :
    (∃ w, r.get "status" = some w) ∧ (∃ w, r.get "task_type" = some w) := by
  cases body with
  | error msg =>
    cases h
    exact ⟨⟨_, rfl⟩, ⟨_, rfl⟩⟩
  | ok data =>
    cases data with
    | obj fs =>
      unfold executeAutomatedTask at h
      dsimp only at h
      split at h
      · cases h
        cases o <;> exact ⟨⟨_, rfl⟩, ⟨_, rfl⟩⟩
      · split at h
        · cases h
          cases o <;> exact ⟨⟨_, rfl⟩, ⟨_, rfl⟩⟩
        · cases h
          exact ⟨⟨_, rfl⟩, ⟨_, rfl⟩⟩
    | null => exact absurd h (by simp [executeAutomatedTask])
    | bool b => exact absurd h (by simp [executeAutomatedTask])
    | num q => exact absurd h (by simp [executeAutomatedTask])
    | str s => exact absurd h (by simp [executeAutomatedTask])
    | arr xs => exact absurd h (by simp [executeAutomatedTask])

theorem execute_envelope_has_status_and_task_type_witness :
    (∃ w, (parseFailResult "bad body").get "status" = some w) ∧
    (∃ w, (parseFailResult "bad body").get "task_type" = some w) :=
  execute_envelope_has_status_and_task_type (.error "bad body") (.ok "t") "now"
    (parseFailResult "bad body") rfl

/-- Claim C9. The two report tiers use different currency formats: with a
positive investment, full-tier monetary leaves are `"$"`-prefixed
comma-grouped renderings (their text starts with `'$'`), while
fallback-tier monetary leaves are comma-grouped renderings suffixed with
`" THB"` whose text contains no `'$'` at all — so no single currency
format parses both tiers. -/
theorem report_tier_currency_formats
    (bd : BusinessData) (text : String) (v : ℚ)
    (h : bd.initial_investment = some v) (hv : 0 < v) :
    (fullReport bd text).getPath ["financial_projections", "revenue_forecast", "year_1"]
      = some (.str ("$" ++ fmtNum (v * 0.8))) ∧
    (fullReport bd text).getPath ["cost_structure", "fixed_costs", "rent"]
      = some (.str ("$" ++ fmtNum (v * 0.02) ++ "/month")) ∧
    (fullReport bd text).getPath ["cash_flow_management", "daily_cash_flow", "inflow"]
      = some (.str ("$" ++ fmtNum (v * 0.003))) ∧
    ("$" ++ fmtNum (v * 0.8)).data.head? = some '$' ∧
    (fallbackReport bd).getPath ["financial_projections", "revenue_forecast", "year_1"]
      = some (.str (fmtNum (v * 0.5) ++ " THB")) ∧
    (fallbackReport bd).getPath ["financial_projections", "revenue_forecast", "year_2"]
      = some (.str (fmtNum (v * 0.75) ++ " THB")) ∧
    (fallbackReport bd).getPath ["funding_requirements", "initial_investment", "total"]
      = some (.str (fmtNum v ++ " THB")) ∧
    '$' ∉ (fmtNum (v * 0.5) ++ " THB").data ∧
    '$' ∉ (fmtNum (v * 0.75) ++ " THB").data ∧
    '$' ∉ (fmtNum v ++ " THB").data := by
  have hne : v ≠ 0 := ne_of_gt hv
  refine ⟨?_, ?_, ?_, ?_, ?_, ?_, ?_, ?_, ?_, ?_⟩
  · simp [fullReport, condMoney, JVal.getPath, JVal.get, getField, h, hne]
  · simp [fullReport, condMoney, JVal.getPath, JVal.get, getField, h, hne]
  · simp [fullReport, condMoney, JVal.getPath, JVal.get, getField, h, hne]
  · simp [String.data_append]
  · simp [fallbackReport, condMoneyTHB, JVal.getPath, JVal.get, getField, h, hne]
  · simp [fallbackReport, condMoneyTHB, JVal.getPath, JVal.get, getField, h, hne]
  · simp [fallbackReport, totalMoneyTHB, JVal.getPath, JVal.get, getField, h, hne]
  · exact dollar_not_mem_thb _ (mul_nonneg hv.le (by norm_num))
  · exact dollar_not_mem_thb _ (mul_nonneg hv.le (by norm_num))
  · exact dollar_not_mem_thb _ hv.le

theorem report_tier_currency_formats_witness :
    (fullReport cafeBD "ai").getPath ["financial_projections", "revenue_forecast", "year_1"]
      = some (.str ("$" ++ fmtNum ((100000 : ℚ) * 0.8))) ∧
    (fullReport cafeBD "ai").getPath ["cost_structure", "fixed_costs", "rent"]
      = some (.str ("$" ++ fmtNum ((100000 : ℚ) * 0.02) ++ "/month")) ∧
    (fullReport cafeBD "ai").getPath ["cash_flow_management", "daily_cash_flow", "inflow"]
      = some (.str ("$" ++ fmtNum ((100000 : ℚ) * 0.003))) ∧
    ("$" ++ fmtNum ((100000 : ℚ) * 0.8)).data.head? = some '$' ∧
    (fallbackReport cafeBD).getPath ["financial_projections", "revenue_forecast", "year_1"]
      = some (.str (fmtNum ((100000 : ℚ) * 0.5) ++ " THB")) ∧
    (fallbackReport cafeBD).getPath ["financial_projections", "revenue_forecast", "year_2"]
      = some (.str (fmtNum ((100000 : ℚ) * 0.75) ++ " THB")) ∧
    (fallbackReport cafeBD).getPath ["funding_requirements", "initial_investment", "total"]
      = some (.str (fmtNum (100000 : ℚ) ++ " THB")) ∧
    '$' ∉ (fmtNum ((100000 : ℚ) * 0.5) ++ " THB").data ∧
    '$' ∉ (fmtNum ((100000 : ℚ) * 0.75) ++ " THB").data ∧
    '$' ∉ (fmtNum (100000 : ℚ) ++ " THB").data :=
  report_tier_currency_formats cafeBD "ai" 100000 rfl (by simp)

/-- Claim C10. The automated-task result is insensitive to the `parameters`
mapping: two parsed bodies that agree on `task_type`, `business_name` and
`business_id` (in particular, two descriptors differing only in their
`parameters`) produce identical results under the same completion outcome
and clock reading — no generator ever reads `parameters`. -/
theorem execute_ignores_parameters
    (fs₁ fs₂ : List (String × JVal)) (o : Completion) (now : String)
    (h1 : getField fs₁ "task_type" = getField fs₂ "task_type")
    (h2 : getField fs₁ "business_name" = getField fs₂ "business_name")
    (h3 : getField fs₁ "business_id" = getField fs₂ "business_id") :
    executeAutomatedTask (.ok (.obj fs₁)) o now
      = executeAutomatedTask (.ok (.obj fs₂)) o now := by
  unfold executeAutomatedTask
  dsimp only
  rw [h1, h2, h3]
  split
  · rfl
  · split
    · rfl
    · rfl

def paramsBodyA : List (String × JVal) :=
  [("task_type", .str "financial_review"), ("business_name", .str "Cafe A"),
   ("parameters", .obj [("period", .str "monthly"), ("depth", .str "full")])]

def paramsBodyB : List (String × JVal) :=
  [("task_type", .str "financial_review"), ("business_name", .str "Cafe A"),
   ("parameters", .obj [])]

theorem execute_ignores_parameters_witness :
    executeAutomatedTask (.ok (.obj paramsBodyA)) (.ok "review") "now"
      = executeAutomatedTask (.ok (.obj paramsBodyB)) (.ok "review") "now" :=
  execute_ignores_parameters paramsBodyA paramsBodyB (.ok "review") "now" rfl rfl rfl

end FinancialAgent
